import Mathlib

/-!
# Raw volume import (`RawVolumeFile::importVolume`) and the loader check primitives

A shallow embedding of `src/apps/common/fileio/RawVolumeFile.cpp` and of the
diagnostic primitives of `src/modules/loaders/ObjectFile.h`.

Conventions of the embedding

* Bytes are natural numbers; a file is the list of its bytes.
* The components of `vec3i` are `int` values, modelled as integers; a product
  of two of them wraps to 32 bits (two's complement, `toInt`), and the
  conversion of an `int` to `size_t` is modulo `2^64` (`toSizeT`).  `size_t`
  values (loop index, element counts, byte offsets) are natural numbers.
* The byte size of a voxel element, `sizeOf(getEnumForVoxelType())`, is a field
  of the target; the theorems that need it assume it is at least one byte.
* The "filename offset" parameter is a non-negative byte offset.
* `exit(1)` ends the run; the run records the state in which it was called, so
  a handle counts as closed only when the loader itself called `fclose`.
* A null dereference and a division by zero are an explicit `fault` outcome;
  the overflow of the `int` product is the two's complement wrap.
* A run records a trace: the diagnostic lines written to `std::cerr`, the
  calls made on the target volume, the entries of `importVoxelRow` and the
  `fread` calls.  The state of the `FILE` handle (position, open or closed)
  is explicit state.
-/

namespace ospray

/-- The value of an integer result as a 32-bit `int` (two's complement wrap). -/
def toInt (a : Int) : Int :=
  (a + 2147483648) % 4294967296 - 2147483648

/-- The conversion of an `int` to the 64-bit `size_t`. -/
def toSizeT (a : Int) : Nat :=
  (a % 18446744073709551616).toNat

/-- Triple of `int` values `vec3i` (dimensions, region origin, region extent). -/
structure vec3i where
  x : Int
  y : Int
  z : Int
deriving DecidableEq

/-- One observable action of a loader. -/
inductive Event where
  | cerr (line : String)
  | createEquivalentISPC
  | importVoxelRow (index : Nat)
  | fread (size : Nat) (count : Nat) (result : Nat)
  | setRegion (source : List Nat) (origin : vec3i) (extent : vec3i)
deriving DecidableEq

/-- A C stream opened for reading: the bytes of the file, the read position
and whether the handle is still open, that is, `fclose` was not called on it. -/
structure FILE where
  content : List Nat
  position : Nat
  isOpen : Bool
deriving DecidableEq

/-- Modelled from the spec: the `StructuredVolume` class is not under src/.
The capability surface the loader uses: 3D dimensions, the byte size of the
voxel element type (`sizeOf(getEnumForVoxelType())`), the parameter table
read by `getParam1i`, and the voxel storage, `x` fastest, then `y`, then `z`. -/
structure StructuredVolume where
  dimensions : vec3i
  voxelSize : Nat
  params : List (String × Nat)
  voxels : List Nat
deriving DecidableEq

/-- The object behind the `Volume *pointer` argument: a structured volume or
anything else (another volume type, or a null pointer). -/
inductive Volume where
  | structured (v : StructuredVolume)
  | other
deriving DecidableEq

/-- Result of `dynamic_cast<StructuredVolume *>(pointer)`; `none` is the null pointer. -/
def dynamic_cast : Volume → Option StructuredVolume
  | .structured v => some v
  | .other => none

/-- Modelled from the spec: `getParam1i(name, default)` is not under src/; it
looks the parameter up in the table of the target and falls back to the default. -/
def StructuredVolume.getParam1i (v : StructuredVolume) (name : String) (dflt : Nat) : Nat :=
  (v.params.lookup name).getD dflt

/-- Number of bytes of the storage of a volume of the declared shape. -/
def StructuredVolume.byteCount (v : StructuredVolume) : Nat :=
  v.dimensions.x.toNat * v.dimensions.y.toNat * v.dimensions.z.toNat * v.voxelSize

/-- Modelled from the spec: `createEquivalentISPC` is not under src/; the
storage-allocation hook gives the target backing storage sized for its declared
dimensions and voxel type (the content before any write is taken to be zero). -/
def StructuredVolume.createEquivalentISPC (v : StructuredVolume) : StructuredVolume :=
  { v with voxels := List.replicate v.byteCount 0 }

/-- Modelled from the spec: `setRegion` is not under src/; the region write
copies `extent.x * extent.y * extent.z` voxels from `source` (`x` fastest) into
the box of the storage that starts at `origin`. -/
def StructuredVolume.setRegion (v : StructuredVolume) (source : List Nat)
    (origin extent : vec3i) : StructuredVolume :=
  { v with voxels := (List.range v.voxels.length).map fun b =>
      let e := b / v.voxelSize
      let x : Int := (e % v.dimensions.x.toNat : Nat)
      let y : Int := ((e / v.dimensions.x.toNat) % v.dimensions.y.toNat : Nat)
      let z : Int := (e / (v.dimensions.x.toNat * v.dimensions.y.toNat) : Nat)
      if origin.x ≤ x ∧ x < origin.x + extent.x ∧
         origin.y ≤ y ∧ y < origin.y + extent.y ∧
         origin.z ≤ z ∧ z < origin.z + extent.z then
        let i := ((z - origin.z) * extent.y + (y - origin.y)) * extent.x + (x - origin.x)
        source.getD (i.toNat * v.voxelSize + b % v.voxelSize) 0
      else v.voxels.getD b 0 }

/-- Modelled from the spec: the `Data` class is not under src/; a row buffer
holds `numItems` elements of `itemSize` bytes (`sizeOf(type)`) in raw byte storage. -/
structure Data where
  numItems : Nat
  itemSize : Nat
  data : List Nat
deriving DecidableEq

/-- The buffer made by `new Data(numItems, type, NULL, 0)`: storage of
`numItems * sizeOf(type)` bytes (the content before any read is taken to be zero). -/
def Data.new (numItems itemSize : Nat) : Data :=
  { numItems := numItems, itemSize := itemSize, data := List.replicate (numItems * itemSize) 0 }

/-- `fopen(filename, "rb")` against a file system that maps a path to the bytes
of the file, when the file can be opened. -/
def fopen (fs : String → Option (List Nat)) (filename : String) : Option FILE :=
  (fs filename).map fun bytes => { content := bytes, position := 0, isOpen := true }

/-- `fseek(file, offset, SEEK_SET)`: the position becomes `offset`, also beyond
the end of the file; the return value is not looked at by the loader. -/
def fseek (file : FILE) (offset : Nat) : FILE :=
  { file with position := offset }

/-- `fclose(file)`. -/
def fclose (file : FILE) : FILE :=
  { file with isOpen := false }

/-- `fread(buffer, size, count, file)`: transfers the bytes available, at most
`size * count`, into the front of the buffer, advances the position by as much
and returns the number of whole elements read. -/
def fread (buffer : List Nat) (size count : Nat) (file : FILE) : Nat × List Nat × FILE :=
  let bytes := (file.content.drop file.position).take (size * count)
  let result := if size = 0 then 0 else bytes.length / size
  (result, bytes ++ buffer.drop bytes.length,
    { file with position := file.position + bytes.length })

/-- The loader object: the path it is bound to and the value of the virtual
`toString()`, its type name. -/
structure RawVolumeFile where
  filename : String
  toString : String
deriving DecidableEq

/-- Result of a check primitive: control returns to the caller, or the
process exits with a code. -/
inductive Check where
  | proceed (trace : List Event)
  | exit (code : Nat) (trace : List Event)
deriving DecidableEq

/-- `ObjectFile::emitMessage`: one line on `std::cerr`. -/
def emitMessage (toString kind message : String) (trace : List Event) : List Event :=
  trace ++ [Event.cerr ("  " ++ toString ++ "  " ++ kind ++ ": " ++ message ++ ".")]

/-- `ObjectFile::exitOnCondition`. -/
def exitOnCondition (toString : String) (condition : Bool) (message : String)
    (trace : List Event) : Check :=
  if !condition then Check.proceed trace
  else Check.exit 1 (emitMessage toString "ERROR" message trace)

/-- `ObjectFile::warnOnCondition`. -/
def warnOnCondition (toString : String) (condition : Bool) (message : String)
    (trace : List Event) : Check :=
  if !condition then Check.proceed trace
  else Check.proceed (emitMessage toString "WARNING" message trace)

/-- The state the row loop of `importVolume` works on. -/
structure RowState where
  trace : List Event
  file : FILE
  volume : StructuredVolume
  buffer : Data
deriving DecidableEq

/-- Result of one call of `importVoxelRow`, and of the row loop. -/
inductive Step where
  | next (st : RowState)
  | exit (code : Nat) (st : RowState)
  | fault (st : RowState)
deriving DecidableEq

/-- The message of the fatal check of `importVoxelRow`. -/
def shortReadMessage : String := "end of volume file reached before read completed"

/-- The message of the fatal check on the target type. -/
def typeMismatchMessage : String := "unexpected volume type"

/-- The message of the fatal check on the opened file. -/
def fileOpenMessage (filename : String) : String :=
  "unable to open file '" ++ filename ++ "'"

/-- `RawVolumeFile::importVoxelRow`.  The index is a `size_t`, so the `int`
component `y` is converted to `size_t` for `%` and `/`; the results `j`, `k` and
the element count are converted to `int` by the `vec3i` constructor. -/
def importVoxelRow (self : RawVolumeFile) (st : RowState) (index : Nat) : Step :=
  let entered := st.trace ++ [Event.importVoxelRow index]
  if toSizeT st.volume.dimensions.y = 0 then Step.fault { st with trace := entered }
  else
    let j := index % toSizeT st.volume.dimensions.y
    let k := index / toSizeT st.volume.dimensions.y
    let r := fread st.buffer.data st.buffer.itemSize st.buffer.numItems st.file
    let voxelsRead := r.1
    let buffer : Data := { st.buffer with data := r.2.1 }
    let st1 : RowState :=
      { st with
        trace := entered ++ [Event.fread st.buffer.itemSize st.buffer.numItems voxelsRead],
        file := r.2.2, buffer := buffer }
    match exitOnCondition self.toString (voxelsRead != buffer.numItems) shortReadMessage
        st1.trace with
    | Check.exit code t => Step.exit code { st1 with trace := t }
    | Check.proceed t =>
      Step.next
        { st1 with
          trace := t ++ [Event.setRegion buffer.data ⟨0, toInt j, toInt k⟩
            ⟨toInt buffer.numItems, 1, 1⟩],
          volume := st1.volume.setRegion buffer.data ⟨0, toInt j, toInt k⟩
            ⟨toInt buffer.numItems, 1, 1⟩ }

/-- The loop `for (i = first; i < first + count; i++) importVoxelRow(..., i)`;
a call that exits or faults ends the loop. -/
def importRows (self : RawVolumeFile) : Nat → Nat → RowState → Step
  | 0, _, st => Step.next st
  | count + 1, i, st =>
    match importVoxelRow self st i with
    | Step.next st1 => importRows self count (i + 1) st1
    | Step.exit code st1 => Step.exit code st1
    | Step.fault st1 => Step.fault st1

/-- How a call of `importVolume` ends: it returns the catalog
`ObjectCatalog(name, volume)`, the process exits, or the behaviour is undefined. -/
inductive Outcome where
  | returned (name : String)
  | exited (code : Nat)
  | fault
deriving DecidableEq

/-- A finished call of `importVolume`. -/
structure Run where
  outcome : Outcome
  trace : List Event
  file : Option FILE
  volume : Volume
deriving DecidableEq

/-- `RawVolumeFile::importVolume`.  The loop bound is the `int` product
`getDimensions().y * getDimensions().z`, which wraps to 32 bits, converted to
`size_t` for the comparison with the index. -/
def importVolume (self : RawVolumeFile) (fs : String → Option (List Nat))
    (pointer : Volume) : Run :=
  let file := fopen fs self.filename
  match exitOnCondition self.toString file.isNone (fileOpenMessage self.filename) [], file with
  | Check.exit code t, _ =>
    { outcome := Outcome.exited code, trace := t, file := file, volume := pointer }
  | Check.proceed t, none =>
    { outcome := Outcome.fault, trace := t, file := none, volume := pointer }
  | Check.proceed t, some f =>
    let volume := dynamic_cast pointer
    match exitOnCondition self.toString volume.isNone typeMismatchMessage t, volume with
    | Check.exit code t1, _ =>
      { outcome := Outcome.exited code, trace := t1, file := some f, volume := pointer }
    | Check.proceed t1, none =>
      { outcome := Outcome.fault, trace := t1, file := some f, volume := pointer }
    | Check.proceed t1, some v =>
      let offset := v.getParam1i "filename offset" 0
      let f1 := fseek f offset
      let v1 := v.createEquivalentISPC
      let buffer := Data.new (toSizeT v1.dimensions.x) v1.voxelSize
      match importRows self (toSizeT (toInt (v1.dimensions.y * v1.dimensions.z))) 0
          { trace := t1 ++ [Event.createEquivalentISPC], file := f1, volume := v1,
            buffer := buffer } with
      | Step.exit code st =>
        { outcome := Outcome.exited code, trace := st.trace, file := some st.file,
          volume := Volume.structured st.volume }
      | Step.fault st =>
        { outcome := Outcome.fault, trace := st.trace, file := some st.file,
          volume := Volume.structured st.volume }
      | Step.next st =>
        { outcome := Outcome.returned "volume", trace := st.trace,
          file := some (fclose st.file), volume := Volume.structured st.volume }

/-! ### Projections of a trace -/

/-- The region writes of a trace, in order: source bytes, origin, extent. -/
def writesOf : List Event → List (List Nat × vec3i × vec3i)
  | [] => []
  | Event.setRegion s o e :: t => (s, o, e) :: writesOf t
  | _ :: t => writesOf t

/-- The indices of the `importVoxelRow` calls of a trace, in order. -/
def callsOf : List Event → List Nat
  | [] => []
  | Event.importVoxelRow i :: t => i :: callsOf t
  | _ :: t => callsOf t

/-- The number of `fread` calls of a trace. -/
def readsOf : List Event → Nat
  | [] => 0
  | Event.fread _ _ _ :: t => readsOf t + 1
  | _ :: t => readsOf t

/-- The number of calls of the storage-allocation hook in a trace. -/
def allocsOf : List Event → Nat
  | [] => 0
  | Event.createEquivalentISPC :: t => allocsOf t + 1
  | _ :: t => allocsOf t

/-- The diagnostic lines of a trace, in order. -/
def cerrOf : List Event → List String
  | [] => []
  | Event.cerr l :: t => l :: cerrOf t
  | _ :: t => cerrOf t

/-- The file system of the examples: one file, `"volume.raw"`. -/
def oneFile (bytes : List Nat) : String → Option (List Nat) :=
  fun path => if path = "volume.raw" then some bytes else none

/-- The loader of the examples. -/
def rawLoader : RawVolumeFile :=
  { filename := "volume.raw", toString := "ospray_module_loaders::RawVolumeFile" }

/-- A structured target of the examples. -/
def target (x y z : Int) (s : Nat) (params : List (String × Nat)) : Volume :=
  Volume.structured { dimensions := ⟨x, y, z⟩, voxelSize := s, params := params, voxels := [] }

/-- The final storage of a run (empty when the target is not a structured volume). -/
def Volume.voxels : Volume → List Nat
  | Volume.structured v => v.voxels
  | Volume.other => []

/-- The number of whole elements of `s` bytes left in file `F` at the start of
scanline `t`, for rows of `x` elements that start at byte offset `N`. -/
def elementsLeft (F : List Nat) (N x s t : Nat) : Nat :=
  (F.length - (N + t * (x * s))) / s

/-- The bytes of scanline `t` in file `F`. -/
def rowBytes (F : List Nat) (N x s t : Nat) : List Nat :=
  (F.drop (N + t * (x * s))).take (x * s)

/-- The region write of scanline `t` of a volume whose rows have `x` elements
and whose planes have `y` rows. -/
def rowWrite (F : List Nat) (N x y s t : Nat) : List Nat × vec3i × vec3i :=
  (rowBytes F N x s t, ⟨0, (t % y : Nat), (t / y : Nat)⟩, ⟨x, 1, 1⟩)

/-- The events of a complete scanline `t`. -/
def rowEvents (F : List Nat) (N x y s t : Nat) : List Event :=
  [Event.importVoxelRow t, Event.fread s x x,
   Event.setRegion (rowBytes F N x s t) ⟨0, (t % y : Nat), (t / y : Nat)⟩ ⟨x, 1, 1⟩]

/-- The events of the complete scanlines `0 .. i-1`. -/
def rowsTrace (F : List Nat) (N x y s : Nat) : Nat → List Event
  | 0 => []
  | i + 1 => rowsTrace F N x y s i ++ rowEvents F N x y s i

/-- The diagnostic line of a fatal check of loader `self`. -/
def errorLine (self : RawVolumeFile) (message : String) : String :=
  "  " ++ self.toString ++ "  " ++ "ERROR" ++ ": " ++ message ++ "."

/-- The target has the non-negative `int` dimensions `(x, y, z)` and its number
of scanlines `y * z` is below `2^31`, so that the `int` product does not wrap. -/
def StructuredVolume.hasDimensions (v : StructuredVolume) (x y z : Nat) : Prop :=
  v.dimensions = ⟨x, y, z⟩ ∧ x < 2147483648 ∧ y < 2147483648 ∧ z < 2147483648 ∧
    y * z < 2147483648

/-! ### Invariants of the row loop -/

/-- The state of the row loop before scanline `i`, for file `F`, offset `N`,
dimensions `(x, y, z)` and element size `s`, when the trace before the loop is
`T0`: scanlines `0 .. i-1` were read and written. -/
structure RowInv (F : List Nat) (N x y z s : Nat) (T0 : List Event)
    (i : Nat) (st : RowState) : Prop where
  content : st.file.content = F
  position : st.file.position = N + i * (x * s)
  isOpen : st.file.isOpen = true
  dimensions : st.volume.dimensions = ⟨x, y, z⟩
  voxelSize : st.volume.voxelSize = s
  numItems : st.buffer.numItems = x
  itemSize : st.buffer.itemSize = s
  dataLength : st.buffer.data.length = x * s
  length : st.volume.voxels.length = x * y * z * s
  stored : ∀ b, b < i * (x * s) → st.volume.voxels.getD b 0 = F.getD (N + b) 0
  trace : st.trace = T0 ++ rowsTrace F N x y s i

/-- The state in which the row loop exits at scanline `i` on a short read. -/
structure ShortInv (loader : RawVolumeFile) (F : List Nat) (N x y z s : Nat)
    (T0 : List Event) (i : Nat) (st : RowState) : Prop where
  content : st.file.content = F
  isOpen : st.file.isOpen = true
  dimensions : st.volume.dimensions = ⟨x, y, z⟩
  voxelSize : st.volume.voxelSize = s
  length : st.volume.voxels.length = x * y * z * s
  stored : ∀ b, b < i * (x * s) → st.volume.voxels.getD b 0 = F.getD (N + b) 0
  trace : ∃ got, got < x ∧
    st.trace = T0 ++ rowsTrace F N x y s i ++
      [Event.importVoxelRow i, Event.fread s x got,
       Event.cerr (errorLine loader shortReadMessage)]

/-- Two states of the row loop that agree on everything but the bytes of the
file before the read position and the parameter table of the target. -/
structure Similar (a b : RowState) : Prop where
  trace : a.trace = b.trace
  rest : a.file.content.drop a.file.position = b.file.content.drop b.file.position
  isOpen : a.file.isOpen = b.file.isOpen
  dimensions : a.volume.dimensions = b.volume.dimensions
  voxelSize : a.volume.voxelSize = b.volume.voxelSize
  voxels : a.volume.voxels = b.volume.voxels
  buffer : a.buffer = b.buffer

/-- Two results of the row loop of the same kind, with the same exit code and
similar states. -/
def Step.Similar : Step → Step → Prop
  | Step.next a, Step.next b => ospray.Similar a b
  | Step.exit c a, Step.exit c1 b => c = c1 ∧ ospray.Similar a b
  | Step.fault a, Step.fault b => ospray.Similar a b
  | _, _ => False

/-- The number of scanlines the loop of `importVolume` visits: the `int` product
of the `y` and `z` dimensions, converted to `size_t`. -/
def scanlines (v : StructuredVolume) : Nat :=
  toSizeT (toInt (v.dimensions.y * v.dimensions.z))

/-- The state in which `importVolume` enters the row loop, for a file of bytes
`F` that opened and a structured target `v`. -/
def startState (F : List Nat) (v : StructuredVolume) : RowState :=
  { trace := [] ++ [Event.createEquivalentISPC],
    file := fseek { content := F, position := 0, isOpen := true }
      (v.getParam1i "filename offset" 0),
    volume := v.createEquivalentISPC,
    buffer := Data.new (toSizeT v.createEquivalentISPC.dimensions.x)
      v.createEquivalentISPC.voxelSize }

/-- The end of `importVolume` after the row loop. -/
def finishRun : Step → Run
  | Step.exit code st =>
    { outcome := Outcome.exited code, trace := st.trace, file := some st.file,
      volume := Volume.structured st.volume }
  | Step.fault st =>
    { outcome := Outcome.fault, trace := st.trace, file := some st.file,
      volume := Volume.structured st.volume }
  | Step.next st =>
    { outcome := Outcome.returned "volume", trace := st.trace,
      file := some (fclose st.file), volume := Volume.structured st.volume }


/-! ### Arithmetic, lists and trace projections -/

theorem bytes_length_complete (F : List Nat) (pos s x : Nat) (hc : x ≤ (F.length - pos) / s) :
    ((F.drop pos).take (s * x)).length = s * x := by
  rcases Nat.eq_zero_or_pos s with hs | hs
  · subst hs; simp
  · have := (Nat.le_div_iff_mul_le hs).1 hc
    simp only [List.length_take, List.length_drop]
    rw [Nat.mul_comm] at this
    omega

theorem bytes_length_short (F : List Nat) (pos s x : Nat) (hs : 0 < s) (hc : (F.length - pos) / s < x) :
    ((F.drop pos).take (s * x)).length = F.length - pos := by
  have := (Nat.div_lt_iff_lt_mul hs).1 hc
  simp only [List.length_take, List.length_drop]
  rw [Nat.mul_comm] at this
  omega

theorem getD_take_drop (F : List Nat) (p w t : Nat) (ht : t < w) :
    ((F.drop p).take w).getD t 0 = F.getD (p + t) 0 := by
  simp [List.getD_eq_getElem?_getD, List.getElem?_take, ht, List.getElem?_drop]

theorem getD_map_range (n : Nat) (g : Nat → Nat) (b : Nat) (hb : b < n) :
    ((List.range n).map g).getD b 0 = g b := by
  simp [List.getD_eq_getElem?_getD, hb]

theorem row_index (x y s i b : Nat) (hx : 0 < x) (hs : 0 < s) :
    (((b / s) / x) % y = i % y ∧ (b / s) / (x * y) = i / y) ↔ (i * (x * s) ≤ b ∧ b < (i + 1) * (x * s)) := by
  have h1 : b / s / x = b / (x * s) := by rw [Nat.div_div_eq_div_mul, Nat.mul_comm]
  have h2 : b / s / (x * y) = b / (x * s) / y := by
    rw [← Nat.div_div_eq_div_mul, h1]
  rw [h2, h1]
  have hw : 0 < x * s := Nat.mul_pos hx hs
  constructor
  · rintro ⟨hm, hd⟩
    have : b / (x * s) = i := by
      rw [← Nat.div_add_mod (b / (x * s)) y, ← Nat.div_add_mod i y, hm, hd]
    constructor
    · rw [← this]; exact Nat.div_mul_le_self b (x * s)
    · rw [← this]; exact (Nat.div_lt_iff_lt_mul hw).1 (Nat.lt_succ_self _)
  · rintro ⟨hl, hu⟩
    have : b / (x * s) = i := by
      apply Nat.div_eq_of_lt_le
      · simpa [Nat.mul_comm] using hl
      · simpa [Nat.mul_comm] using hu
    rw [this]; exact ⟨rfl, rfl⟩


theorem writesOf_append (a b : List Event) : writesOf (a ++ b) = writesOf a ++ writesOf b := by
  induction a with
  | nil => rfl
  | cons e t ih => cases e <;> simp [writesOf, ih]

theorem callsOf_append (a b : List Event) : callsOf (a ++ b) = callsOf a ++ callsOf b := by
  induction a with
  | nil => rfl
  | cons e t ih => cases e <;> simp [callsOf, ih]

theorem cerrOf_append (a b : List Event) : cerrOf (a ++ b) = cerrOf a ++ cerrOf b := by
  induction a with
  | nil => rfl
  | cons e t ih => cases e <;> simp [cerrOf, ih]

theorem readsOf_append (a b : List Event) : readsOf (a ++ b) = readsOf a + readsOf b := by
  induction a with
  | nil => simp [readsOf]
  | cons e t ih => cases e <;> simp [readsOf, ih, Nat.add_right_comm]

theorem allocsOf_append (a b : List Event) : allocsOf (a ++ b) = allocsOf a + allocsOf b := by
  induction a with
  | nil => simp [allocsOf]
  | cons e t ih => cases e <;> simp [allocsOf, ih, Nat.add_right_comm]

theorem writesOf_rowsTrace (F : List Nat) (N x y s i : Nat) :
    writesOf (rowsTrace F N x y s i) = (List.range i).map (rowWrite F N x y s) := by
  induction i with
  | zero => rfl
  | succ i ih =>
    simp [rowsTrace, writesOf_append, ih, List.range_succ, rowEvents, writesOf, rowWrite]

theorem callsOf_rowsTrace (F : List Nat) (N x y s i : Nat) :
    callsOf (rowsTrace F N x y s i) = List.range i := by
  induction i with
  | zero => rfl
  | succ i ih =>
    simp [rowsTrace, callsOf_append, ih, List.range_succ, rowEvents, callsOf]

theorem cerrOf_rowsTrace (F : List Nat) (N x y s i : Nat) :
    cerrOf (rowsTrace F N x y s i) = [] := by
  induction i with
  | zero => rfl
  | succ i ih => simp [rowsTrace, cerrOf_append, ih, rowEvents, cerrOf]

theorem readsOf_rowsTrace (F : List Nat) (N x y s i : Nat) :
    readsOf (rowsTrace F N x y s i) = i := by
  induction i with
  | zero => rfl
  | succ i ih => simp [rowsTrace, readsOf_append, ih, rowEvents, readsOf]

theorem allocsOf_rowsTrace (F : List Nat) (N x y s i : Nat) :
    allocsOf (rowsTrace F N x y s i) = 0 := by
  induction i with
  | zero => rfl
  | succ i ih => simp [rowsTrace, allocsOf_append, ih, rowEvents, allocsOf]


theorem toSizeT_natCast (n : Nat) (h : n < 18446744073709551616) : toSizeT (n : Int) = n := by
  unfold toSizeT
  omega

theorem toInt_natCast (n : Nat) (h : n < 2147483648) : toInt (n : Int) = n := by
  unfold toInt
  omega

theorem scanlines_eq (v : StructuredVolume) (x y z : Nat) (hd : v.hasDimensions x y z) :
    scanlines v = y * z := by
  obtain ⟨h1, _, _, _, h5⟩ := hd
  have hc : ((y : Int) * (z : Int)) = ((y * z : Nat) : Int) := by push_cast; rfl
  rw [scanlines, h1]
  simp only
  rw [hc, toInt_natCast _ h5, toSizeT_natCast _ (by omega)]

theorem setRegion_length (v : StructuredVolume) (src : List Nat) (o e : vec3i) :
    (v.setRegion src o e).voxels.length = v.voxels.length := by
  simp [StructuredVolume.setRegion]

theorem setRegion_row_getD (v : StructuredVolume) (src : List Nat) (x y z s i b : Nat)
    (hd : v.dimensions = ⟨x, y, z⟩) (hs : v.voxelSize = s)
    (hb : b < v.voxels.length) (hlen : v.voxels.length = x * y * z * s) :
    (v.setRegion src ⟨0, (i % y : Nat), (i / y : Nat)⟩ ⟨x, 1, 1⟩).voxels.getD b 0
      = if i * (x * s) ≤ b ∧ b < (i + 1) * (x * s)
        then src.getD (b - i * (x * s)) 0 else v.voxels.getD b 0 := by
  obtain ⟨d1, s1, ps, vox⟩ := v
  simp only at hd hs hlen hb
  subst hd hs
  have hpos : 0 < x * y * z * s1 := by omega
  have hs : 0 < s1 := Nat.pos_of_ne_zero (by rintro rfl; simp at hpos)
  have hx : 0 < x := Nat.pos_of_ne_zero (by rintro rfl; simp at hpos)
  simp only [StructuredVolume.setRegion, Int.toNat_ofNat]
  rw [getD_map_range _ _ _ hb]
  have hmodx : b / s1 % x < x := Nat.mod_lt _ hx
  have key := row_index x y s1 i b hx hs
  by_cases hrow : i * (x * s1) ≤ b ∧ b < (i + 1) * (x * s1)
  · have hk := key.2 hrow
    have hdiv : b / (x * s1) = i := by
      apply Nat.div_eq_of_lt_le
      · simpa [Nat.mul_comm] using hrow.1
      · simpa [Nat.mul_comm] using hrow.2
    have hidx : b / s1 % x * s1 + b % s1 = b - i * (x * s1) := by
      have h1 := Nat.div_add_mod b (x * s1)
      have h2 : b % (s1 * x) = b % s1 + s1 * (b / s1 % x) := Nat.mod_mul
      rw [Nat.mul_comm s1 x] at h2
      rw [hdiv] at h1
      rw [Nat.mul_comm (b / s1 % x) s1, Nat.add_comm, ← h2]
      rw [Nat.mul_comm i (x * s1)]
      omega
    rw [if_pos hrow, if_pos]
    · simp only [hk.1, hk.2, sub_self, zero_mul, zero_add, sub_zero, Int.toNat_ofNat]
      rw [hidx]
    · refine ⟨by omega, by omega, by omega, by omega, by omega, by omega⟩
  · rw [if_neg hrow, if_neg]
    intro h
    apply hrow
    apply key.1
    constructor <;> omega


theorem fread_complete (buffer : List Nat) (file : FILE) (s x : Nat)
    (hlen : buffer.length = x * s)
    (hc : x ≤ (file.content.length - file.position) / s) :
    fread buffer s x file
      = (x, (file.content.drop file.position).take (x * s),
          { file with position := file.position + x * s }) := by
  have hb := bytes_length_complete file.content file.position s x hc
  have hdrop : buffer.drop (s * x) = [] := by
    apply List.drop_eq_nil_of_le; rw [hlen, Nat.mul_comm]
  have hres : (if s = 0 then 0 else s * x / s) = x := by
    rcases Nat.eq_zero_or_pos s with hs | hs
    · subst hs; simp at hc; simp [hc]
    · rw [if_neg (Nat.pos_iff_ne_zero.1 hs), Nat.mul_div_cancel_left _ hs]
  rw [Nat.mul_comm x s]
  simp only [fread, hb, hdrop, hres, List.append_nil]

theorem fread_short (buffer : List Nat) (file : FILE) (s x : Nat)
    (hc : (file.content.length - file.position) / s < x) :
    (fread buffer s x file).1 < x := by
  rcases Nat.eq_zero_or_pos s with hs | hs
  · subst hs; simp [fread]; omega
  · have hb := bytes_length_short file.content file.position s x hs hc
    simp only [fread, hb, if_neg (Nat.pos_iff_ne_zero.1 hs)]
    exact hc

theorem row_in_bounds (y z i : Nat) (hi : i < y * z) : i % y < y ∧ i / y < z := by
  have hy : 0 < y := Nat.pos_of_ne_zero (by rintro rfl; simp at hi)
  exact ⟨Nat.mod_lt _ hy, Nat.div_lt_of_lt_mul hi⟩

theorem importVoxelRow_complete (self : RawVolumeFile) {F : List Nat} {N x y z s : Nat}
    {T0 : List Event} {i : Nat} {st : RowState}
    (h : RowInv F N x y z s T0 i st) (hx : x < 2147483648) (hy : y < 2147483648)
    (hyz : y * z < 2147483648) (hi : i < y * z)
    (hc : x ≤ elementsLeft F N x s i) :
    ∃ st1, importVoxelRow self st i = Step.next st1 ∧ RowInv F N x y z s T0 (i + 1) st1 := by
  have hb := row_in_bounds y z i hi
  have hY : toSizeT st.volume.dimensions.y = y := by
    rw [h.dimensions]; exact toSizeT_natCast y (by omega)
  have hy0 : ¬ (y = 0) := by omega
  have hj : toInt ((i % y : Nat) : Int) = ((i % y : Nat) : Int) := toInt_natCast _ (by omega)
  have hk : toInt ((i / y : Nat) : Int) = ((i / y : Nat) : Int) :=
    toInt_natCast _ (by have := Nat.div_le_self i y; omega)
  have hX : toInt ((x : Nat) : Int) = ((x : Nat) : Int) := toInt_natCast _ hx
  have hfr := fread_complete st.buffer.data st.file st.buffer.itemSize st.buffer.numItems
    (by rw [h.dataLength, h.numItems, h.itemSize])
    (by rw [h.content, h.position, h.numItems, h.itemSize]; exact hc)
  unfold importVoxelRow
  simp only [hY, if_neg hy0, hfr, exitOnCondition, bne_self_eq_false, Bool.not_false, if_true]
  refine ⟨_, rfl, ?_⟩
  constructor
  · exact h.content
  · simp only [h.position, h.numItems, h.itemSize]; ring
  · exact h.isOpen
  · exact h.dimensions
  · exact h.voxelSize
  · exact h.numItems
  · exact h.itemSize
  · simp only [h.content, h.position, h.numItems, h.itemSize]
    rw [Nat.mul_comm x s]
    apply bytes_length_complete
    rw [Nat.mul_comm s x]
    exact hc
  · rw [setRegion_length]; exact h.length
  · intro b hb1
    have hw : (i + 1) * (x * s) ≤ x * y * z * s := by
      calc (i + 1) * (x * s) ≤ (y * z) * (x * s) := Nat.mul_le_mul_right _ hi
        _ = x * y * z * s := by ring
    have hsucc : (i + 1) * (x * s) = i * (x * s) + x * s := Nat.succ_mul _ _
    have hbl : b < st.volume.voxels.length := by rw [h.length]; omega
    simp only [h.numItems, h.itemSize, hj, hk, hX]
    rw [setRegion_row_getD st.volume _ x y z s i b h.dimensions h.voxelSize hbl h.length]
    split
    · rename_i hrow
      rw [getD_take_drop _ _ _ _ (by omega), h.content, h.position]
      have hidx : N + i * (x * s) + (b - i * (x * s)) = N + b := by omega
      rw [hidx]
    · rename_i hrow
      apply h.stored
      omega
  · simp only [h.trace, h.numItems, h.itemSize, h.content, h.position, hj, hk, hX, rowsTrace,
      rowEvents, rowBytes, List.append_assoc, List.singleton_append, List.cons_append,
      List.nil_append]

theorem importVoxelRow_short (self : RawVolumeFile) {F : List Nat} {N x y z s : Nat}
    {T0 : List Event} {i : Nat} {st : RowState}
    (h : RowInv F N x y z s T0 i st) (hy : y < 2147483648) (hi : i < y * z)
    (hc : elementsLeft F N x s i < x) :
    ∃ st1, importVoxelRow self st i = Step.exit 1 st1 ∧ ShortInv self F N x y z s T0 i st1 := by
  have hb := row_in_bounds y z i hi
  have hY : toSizeT st.volume.dimensions.y = y := by
    rw [h.dimensions]; exact toSizeT_natCast y (by omega)
  have hy0 : ¬ (y = 0) := by omega
  have hfr := fread_short st.buffer.data st.file st.buffer.itemSize st.buffer.numItems
    (by rw [h.content, h.position, h.numItems, h.itemSize]; exact hc)
  have hne : ((fread st.buffer.data st.buffer.itemSize st.buffer.numItems st.file).1
      != st.buffer.numItems) = true := by
    simp only [bne_iff_ne, ne_eq]; omega
  unfold importVoxelRow
  simp only [hY, if_neg hy0, exitOnCondition, hne, Bool.not_true, Bool.false_eq_true, if_false]
  refine ⟨_, rfl, ?_⟩
  constructor
  · simp only [fread]; exact h.content
  · simp only [fread]; exact h.isOpen
  · exact h.dimensions
  · exact h.voxelSize
  · exact h.length
  · exact h.stored
  · refine ⟨(fread st.buffer.data st.buffer.itemSize st.buffer.numItems st.file).1, ?_, ?_⟩
    · rw [← h.numItems]; exact hfr
    · simp only [emitMessage, h.trace, h.numItems, h.itemSize, errorLine, List.append_assoc,
        List.singleton_append, List.cons_append, List.nil_append]

theorem importRows_spec (self : RawVolumeFile) {F : List Nat} {N x y z s : Nat}
    {T0 : List Event} (hx : x < 2147483648) (hy : y < 2147483648)
    (hyz : y * z < 2147483648) :
    ∀ (count i : Nat) (st : RowState), RowInv F N x y z s T0 i st →
      i + count ≤ y * z →
      ((∀ t, i ≤ t → t < i + count → x ≤ elementsLeft F N x s t) ∧
        ∃ st1, importRows self count i st = Step.next st1 ∧
          RowInv F N x y z s T0 (i + count) st1)
      ∨ (∃ K, i ≤ K ∧ K < i + count ∧
          (∀ t, i ≤ t → t < K → x ≤ elementsLeft F N x s t) ∧
          elementsLeft F N x s K < x ∧
          ∃ st1, importRows self count i st = Step.exit 1 st1 ∧
            ShortInv self F N x y z s T0 K st1) := by
  intro count
  induction count with
  | zero =>
    intro i st h _
    left
    exact ⟨fun t h1 h2 => absurd h2 (by omega), st, rfl, h⟩
  | succ count ih =>
    intro i st h hn
    by_cases hc : x ≤ elementsLeft F N x s i
    · obtain ⟨st1, hstep, hinv⟩ := importVoxelRow_complete self h hx hy hyz (by omega) hc
      have hrun : importRows self (count + 1) i st = importRows self count (i + 1) st1 := by
        simp only [importRows, hstep]
      rcases ih (i + 1) st1 hinv (by omega) with
        ⟨hall, st2, hr, hinv2⟩ | ⟨K, hK1, hK2, hall, hsh, st2, hr, hinv2⟩
      · left
        refine ⟨?_, st2, by rw [hrun, hr],
          by rw [show i + (count + 1) = i + 1 + count by omega]; exact hinv2⟩
        intro t h1 h2
        rcases Nat.eq_or_lt_of_le h1 with h3 | h3
        · subst h3; exact hc
        · exact hall t h3 (by omega)
      · right
        refine ⟨K, by omega, by omega, ?_, hsh, st2, by rw [hrun, hr], hinv2⟩
        intro t h1 h2
        rcases Nat.eq_or_lt_of_le h1 with h3 | h3
        · subst h3; exact hc
        · exact hall t h3 h2
    · obtain ⟨st1, hstep, hinv⟩ := importVoxelRow_short self h hy (by omega) (by omega)
      right
      refine ⟨i, le_refl _, by omega, fun t h1 h2 => absurd h2 (by omega), by omega, st1, ?_,
        hinv⟩
      simp only [importRows, hstep]

theorem importVolume_structured (self : RawVolumeFile) (fs : String → Option (List Nat))
    (F : List Nat) (v : StructuredVolume) (hF : fs self.filename = some F) :
    importVolume self fs (Volume.structured v)
      = finishRun (importRows self (scanlines v) 0 (startState F v)) := by
  simp only [importVolume, fopen, hF, Option.map_some', Option.isNone_some, exitOnCondition,
    Bool.not_false, if_true, dynamic_cast, startState, StructuredVolume.createEquivalentISPC,
    scanlines]
  split <;> rename_i h <;> simp only [h, finishRun]

theorem rowInv_start (F : List Nat) (v : StructuredVolume) (x y z : Nat)
    (hd : v.hasDimensions x y z) :
    RowInv F (v.getParam1i "filename offset" 0) x y z v.voxelSize
      [Event.createEquivalentISPC] 0 (startState F v) := by
  obtain ⟨h1, h2, _, _, _⟩ := hd
  have hX : toSizeT (x : Int) = x := toSizeT_natCast x (by omega)
  constructor <;>
    simp [startState, fseek, StructuredVolume.createEquivalentISPC,
      StructuredVolume.byteCount, Data.new, rowsTrace, h1, hX]

theorem importVolume_spec (self : RawVolumeFile) (fs : String → Option (List Nat))
    (F : List Nat) (v : StructuredVolume) (x y z : Nat)
    (hF : fs self.filename = some F) (hd : v.hasDimensions x y z) :
    ((∀ t, t < y * z →
        x ≤ elementsLeft F (v.getParam1i "filename offset" 0) x v.voxelSize t) ∧
      ∃ st1, RowInv F (v.getParam1i "filename offset" 0) x y z v.voxelSize
          [Event.createEquivalentISPC] (y * z) st1 ∧
        importVolume self fs (Volume.structured v) =
          { outcome := Outcome.returned "volume", trace := st1.trace,
            file := some (fclose st1.file), volume := Volume.structured st1.volume })
    ∨ (∃ K, K < y * z ∧
        (∀ t, t < K →
          x ≤ elementsLeft F (v.getParam1i "filename offset" 0) x v.voxelSize t) ∧
        elementsLeft F (v.getParam1i "filename offset" 0) x v.voxelSize K < x ∧
        ∃ st1, ShortInv self F (v.getParam1i "filename offset" 0) x y z v.voxelSize
            [Event.createEquivalentISPC] K st1 ∧
          importVolume self fs (Volume.structured v) =
            { outcome := Outcome.exited 1, trace := st1.trace,
              file := some st1.file, volume := Volume.structured st1.volume }) := by
  have h0 := rowInv_start F v x y z hd
  have hn := scanlines_eq v x y z hd
  obtain ⟨_, hx, hy, _, hyz⟩ := hd
  have hrun := importRows_spec self hx hy hyz (y * z) 0 _ h0 (by omega)
  rw [importVolume_structured self fs F v hF, hn]
  rcases hrun with ⟨hall, st1, hr, hinv⟩ | ⟨K, _, hK, hall, hsh, st1, hr, hinv⟩
  · left
    refine ⟨fun t ht => hall t (Nat.zero_le _) (by omega), st1, by simpa using hinv, ?_⟩
    rw [hr]
    rfl
  · right
    refine ⟨K, by omega, fun t ht => hall t (Nat.zero_le _) ht, hsh, st1, hinv, ?_⟩
    rw [hr]
    rfl


theorem rowWrite_eq (F : List Nat) (N x y s : Nat) :
    rowWrite F N x y s = fun i =>
      (((F.drop (N + i * x * s)).take (x * s)),
        (⟨0, (i % y : Nat), (i / y : Nat)⟩ : vec3i), (⟨x, 1, 1⟩ : vec3i)) := by
  funext i
  simp only [rowWrite, rowBytes, Nat.mul_assoc]

theorem projections_short {self : RawVolumeFile} {F : List Nat} {N x y z s K : Nat}
    {st : RowState} (h : ShortInv self F N x y z s [Event.createEquivalentISPC] K st) :
    writesOf st.trace = (List.range K).map (rowWrite F N x y s) ∧
    callsOf st.trace = List.range (K + 1) ∧ readsOf st.trace = K + 1 ∧
    cerrOf st.trace = [errorLine self shortReadMessage] ∧ allocsOf st.trace = 1 := by
  obtain ⟨got, _, ht⟩ := h.trace
  rw [ht]
  simp [writesOf_append, callsOf_append, readsOf_append, cerrOf_append, allocsOf_append,
    writesOf_rowsTrace, callsOf_rowsTrace, readsOf_rowsTrace, cerrOf_rowsTrace,
    allocsOf_rowsTrace, writesOf, callsOf, readsOf, cerrOf, allocsOf, List.range_succ]

theorem importVolume_unopened (self : RawVolumeFile) (fs : String → Option (List Nat))
    (pointer : Volume) (hF : fs self.filename = none) :
    importVolume self fs pointer =
      { outcome := Outcome.exited 1,
        trace := [Event.cerr (errorLine self (fileOpenMessage self.filename))],
        file := none, volume := pointer } := by
  simp [importVolume, fopen, hF, exitOnCondition, emitMessage, errorLine]

theorem importVolume_other (self : RawVolumeFile) (fs : String → Option (List Nat))
    (F : List Nat) (hF : fs self.filename = some F) :
    importVolume self fs Volume.other =
      { outcome := Outcome.exited 1,
        trace := [Event.cerr (errorLine self typeMismatchMessage)],
        file := some { content := F, position := 0, isOpen := true },
        volume := Volume.other } := by
  simp [importVolume, fopen, hF, exitOnCondition, emitMessage, errorLine, dynamic_cast]

theorem scanlines_of_zero_divisor (v : StructuredVolume)
    (h : toSizeT v.dimensions.y = 0) : scanlines v = 0 := by
  unfold toSizeT at h
  have h1 : v.dimensions.y % 18446744073709551616 = 0 := by omega
  obtain ⟨q, hq⟩ := Int.dvd_of_emod_eq_zero h1
  have h2 : v.dimensions.y * v.dimensions.z
      = 18446744073709551616 * (q * v.dimensions.z) := by rw [hq]; ring
  unfold scanlines toInt toSizeT
  rw [h2]
  omega

theorem importVoxelRow_handle (self : RawVolumeFile) (st : RowState) (i : Nat)
    (hY : toSizeT st.volume.dimensions.y ≠ 0) (ho : st.file.isOpen = true) :
    (∃ st1, importVoxelRow self st i = Step.next st1 ∧ st1.file.isOpen = true ∧
        st1.volume.dimensions = st.volume.dimensions)
    ∨ (∃ st1, importVoxelRow self st i = Step.exit 1 st1 ∧ st1.file.isOpen = true) := by
  unfold importVoxelRow
  simp only [if_neg hY, exitOnCondition]
  split
  · rename_i code t heq
    split at heq
    · simp at heq
    · right
      simp only [Check.exit.injEq] at heq
      obtain ⟨h1, h2⟩ := heq
      subst h1
      exact ⟨_, rfl, by simpa [fread] using ho⟩
  · rename_i t heq
    left
    exact ⟨_, rfl, by simpa [fread] using ho, by simp [StructuredVolume.setRegion]⟩

theorem importRows_handle (self : RawVolumeFile) :
    ∀ (count i : Nat) (st : RowState),
      (count = 0 ∨ toSizeT st.volume.dimensions.y ≠ 0) → st.file.isOpen = true →
      (∃ st1, importRows self count i st = Step.next st1 ∧ st1.file.isOpen = true)
      ∨ (∃ st1, importRows self count i st = Step.exit 1 st1 ∧ st1.file.isOpen = true) := by
  intro count
  induction count with
  | zero =>
    intro i st _ ho
    exact Or.inl ⟨st, rfl, ho⟩
  | succ count ih =>
    intro i st hY ho
    have hY1 : toSizeT st.volume.dimensions.y ≠ 0 := by
      rcases hY with h | h
      · omega
      · exact h
    rcases importVoxelRow_handle self st i hY1 ho with ⟨st1, hstep, ho1, hd1⟩ | ⟨st1, hstep, ho1⟩
    · have hrun : importRows self (count + 1) i st = importRows self count (i + 1) st1 := by
        simp only [importRows, hstep]
      rw [hrun]
      exact ih (i + 1) st1 (Or.inr (by rw [hd1]; exact hY1)) ho1
    · right
      exact ⟨st1, by simp only [importRows, hstep], ho1⟩


/-- C4, as the code has it: for a structured target whose dimensions are the
non-negative `int` values `(x, y, z)` with `y*z < 2^31`, when scanlines
`0 .. K-1` are complete and fewer than `x` whole elements are left at the start
of scanline `K < y*z`, `importVolume` exits with code 1 after the short-read
diagnostic (which names no scanline), the region writes are those of scanlines
`0 .. K-1`, and `importVoxelRow` was entered for the indices `0 .. K` only, with
`K + 1` reads. -/
theorem importVolume_short_read (self : RawVolumeFile) (fs : String → Option (List Nat))
    (F : List Nat) (v : StructuredVolume) (x y z K : Nat) (hF : fs self.filename = some F)
    (hd : v.hasDimensions x y z) (hK : K < y * z)
    (hpre : ∀ t, t < K →
      x ≤ elementsLeft F (v.getParam1i "filename offset" 0) x v.voxelSize t)
    (hshort : elementsLeft F (v.getParam1i "filename offset" 0) x v.voxelSize K < x) :
    (importVolume self fs (Volume.structured v)).outcome = Outcome.exited 1 ∧
    cerrOf (importVolume self fs (Volume.structured v)).trace
      = ["  " ++ self.toString ++ "  ERROR: end of volume file reached before read completed."] ∧
    writesOf (importVolume self fs (Volume.structured v)).trace
      = (List.range K).map (fun i =>
          (((F.drop (v.getParam1i "filename offset" 0 + i * x * v.voxelSize)).take
              (x * v.voxelSize)),
            (⟨0, (i % y : Nat), (i / y : Nat)⟩ : vec3i), (⟨x, 1, 1⟩ : vec3i))) ∧
    callsOf (importVolume self fs (Volume.structured v)).trace = List.range (K + 1) ∧
    readsOf (importVolume self fs (Volume.structured v)).trace = K + 1 := by
  rcases importVolume_spec self fs F v x y z hF hd with
    ⟨hall, _⟩ | ⟨K1, hK1, hall, hsh, st1, hinv, hrun⟩
  · have := hall K hK
    omega
  · have hKK : K1 = K := by
      rcases Nat.lt_trichotomy K1 K with h | h | h
      · have := hpre K1 h; omega
      · exact h
      · have := hall K h; omega
    subst hKK
    obtain ⟨h1, h2, h3, h4, _⟩ := projections_short hinv
    rw [hrun, ← rowWrite_eq]
    refine ⟨rfl, ?_, h1, h2, h3⟩
    rw [h4]
    simp [errorLine, shortReadMessage, String.append_assoc]

/-- An instance of C4: a file of 6 bytes and a (4,2,2) volume of 1-byte voxels;
scanline 0 is complete and scanline 1 is short. -/
theorem importVolume_short_read_witness :
    (importVolume rawLoader (oneFile (List.range 6)) (target 4 2 2 1 [])).outcome
      = Outcome.exited 1 ∧
    writesOf (importVolume rawLoader (oneFile (List.range 6)) (target 4 2 2 1 [])).trace
      = [([0, 1, 2, 3], ⟨0, 0, 0⟩, ⟨4, 1, 1⟩)] ∧
    callsOf (importVolume rawLoader (oneFile (List.range 6)) (target 4 2 2 1 [])).trace
      = [0, 1] :=
  have h := importVolume_short_read rawLoader (oneFile (List.range 6)) (List.range 6)
    ⟨⟨4, 2, 2⟩, 1, [], []⟩ 4 2 2 1 rfl ⟨rfl, by decide, by decide, by decide, by decide⟩
    (by decide) (by decide) (by decide)
  ⟨h.1, h.2.2.1, h.2.2.2.1⟩

/-- C4 as stated fails: the failure reported for a short read at scanline 0 and
the one reported for a short read at scanline 1 are the same exit code and the
same diagnostic line, so the failure does not carry the scanline index; and with
dimensions (1,65536,65536) and a file of 3 bytes, where scanlines 0..2 are
complete and scanline 3 is short, the `int` product of the loop bound wraps to 0
and `importVolume` returns without a call of `importVoxelRow`. -/
theorem short_read_reports_no_index :
    callsOf (importVolume rawLoader (oneFile (List.range 3)) (target 4 2 2 1 [])).trace = [0] ∧
    callsOf (importVolume rawLoader (oneFile (List.range 6)) (target 4 2 2 1 [])).trace
      = [0, 1] ∧
    (importVolume rawLoader (oneFile (List.range 3)) (target 4 2 2 1 [])).outcome
      = (importVolume rawLoader (oneFile (List.range 6)) (target 4 2 2 1 [])).outcome ∧
    cerrOf (importVolume rawLoader (oneFile (List.range 3)) (target 4 2 2 1 [])).trace
      = cerrOf (importVolume rawLoader (oneFile (List.range 6)) (target 4 2 2 1 [])).trace ∧
    cerrOf (importVolume rawLoader (oneFile (List.range 6)) (target 4 2 2 1 [])).trace
      = ["  ospray_module_loaders::RawVolumeFile  ERROR: end of volume file reached before read completed."] ∧
    elementsLeft [1, 2, 3] 0 1 1 2 = 1 ∧ elementsLeft [1, 2, 3] 0 1 1 3 = 0 ∧
    (importVolume rawLoader (oneFile [1, 2, 3]) (target 1 65536 65536 1 [])).outcome
      = Outcome.returned "volume" ∧
    callsOf (importVolume rawLoader (oneFile [1, 2, 3]) (target 1 65536 65536 1 [])).trace
      = [] := by
  refine ⟨rfl, rfl, rfl, rfl, rfl, rfl, rfl, rfl, rfl⟩

/-- C6, as the code has it: for a target that is not a structured volume,
`importVolume` exits with code 1 after one diagnostic, "unexpected volume type"
when the file can be opened and "unable to open file" when it cannot, and in
both cases without a call of the allocation hook, a row read or a region write. -/
theorem importVolume_type_mismatch (self : RawVolumeFile) (fs : String → Option (List Nat)) :
    (importVolume self fs Volume.other).outcome = Outcome.exited 1 ∧
    (importVolume self fs Volume.other).trace
      = [Event.cerr ("  " ++ self.toString ++ "  ERROR: " ++
          (if (fs self.filename).isSome then "unexpected volume type"
            else "unable to open file '" ++ self.filename ++ "'") ++ ".")] ∧
    allocsOf (importVolume self fs Volume.other).trace = 0 ∧
    readsOf (importVolume self fs Volume.other).trace = 0 ∧
    callsOf (importVolume self fs Volume.other).trace = [] ∧
    writesOf (importVolume self fs Volume.other).trace = [] := by
  rcases hfs : fs self.filename with _ | F
  · rw [importVolume_unopened self fs _ hfs]
    simp [errorLine, fileOpenMessage, String.append_assoc, allocsOf, readsOf, callsOf, writesOf]
  · rw [importVolume_other self fs F hfs]
    simp [errorLine, typeMismatchMessage, String.append_assoc, allocsOf, readsOf, callsOf,
      writesOf]

/-- C6 as stated fails: with a path that cannot be opened and a target that is
not a structured volume, the diagnostic is the one of the file check, not the
one of the type check. -/
theorem unopened_file_precedes_type_check :
    (importVolume { filename := "missing.raw", toString := "RawVolumeFile" }
        (oneFile []) Volume.other).trace
      = [Event.cerr "  RawVolumeFile  ERROR: unable to open file 'missing.raw'."] ∧
    (importVolume { filename := "missing.raw", toString := "RawVolumeFile" }
        (oneFile []) Volume.other).trace
      ≠ [Event.cerr "  RawVolumeFile  ERROR: unexpected volume type."] := by
  refine ⟨rfl, by decide⟩


/-- C7, as the code has it: after a successful open, the handle is closed at the
end of `importVolume` exactly when the call returns; on the exits through a
fatal check (type mismatch, short read at any scanline) `fclose` was not
called and the handle is open when `exit(1)` is called. -/
theorem handle_closed_iff_returned (self : RawVolumeFile) (fs : String → Option (List Nat))
    (pointer : Volume) (F : List Nat) (hF : fs self.filename = some F) :
    ((importVolume self fs pointer).file.map FILE.isOpen = some false ↔
      (importVolume self fs pointer).outcome = Outcome.returned "volume") ∧
    ((importVolume self fs pointer).file.map FILE.isOpen = some true ↔
      (importVolume self fs pointer).outcome = Outcome.exited 1) := by
  rcases pointer with v | _
  · rw [importVolume_structured self fs F v hF]
    have hY : scanlines v = 0 ∨ toSizeT (startState F v).volume.dimensions.y ≠ 0 := by
      by_cases h : toSizeT v.dimensions.y = 0
      · exact Or.inl (scanlines_of_zero_divisor v h)
      · exact Or.inr h
    rcases importRows_handle self (scanlines v) 0 (startState F v) hY rfl with
      ⟨st1, hrun, ho⟩ | ⟨st1, hrun, ho⟩
    · rw [hrun]
      simp [finishRun, fclose]
    · rw [hrun]
      simp [finishRun, ho]
  · rw [importVolume_other self fs F hF]
    simp

/-- Instances of C7: a complete import ends with the handle closed, a short
read ends with the handle open. -/
theorem handle_closed_iff_returned_witness :
    (importVolume rawLoader (oneFile (List.range 16)) (target 4 2 2 1 [])).file.map FILE.isOpen
      = some false ∧
    (importVolume rawLoader (oneFile (List.range 6)) (target 4 2 2 1 [])).file.map FILE.isOpen
      = some true :=
  ⟨(handle_closed_iff_returned rawLoader (oneFile (List.range 16)) (target 4 2 2 1 [])
      (List.range 16) rfl).1.2 rfl,
   (handle_closed_iff_returned rawLoader (oneFile (List.range 6)) (target 4 2 2 1 [])
      (List.range 6) rfl).2.2 rfl⟩

/-- C7 as stated fails: after a successful open, the exit on a target that is
not a structured volume and the exit on a short read both leave the handle open. -/
theorem handle_open_at_fatal_exit :
    (importVolume rawLoader (oneFile (List.range 16)) Volume.other).outcome = Outcome.exited 1 ∧
    (importVolume rawLoader (oneFile (List.range 16)) Volume.other).file
      = some { content := List.range 16, position := 0, isOpen := true } ∧
    (importVolume rawLoader (oneFile (List.range 6)) (target 4 2 2 1 [])).outcome
      = Outcome.exited 1 ∧
    (importVolume rawLoader (oneFile (List.range 6)) (target 4 2 2 1 [])).file
      = some { content := List.range 6, position := 6, isOpen := true } := by
  refine ⟨rfl, rfl, rfl, rfl⟩

/-- C8, as the code has it: for a file that opens and a structured target whose
dimensions are the non-negative `int` values `(x, y, z)` with `y*z < 2^31`, at
least one scanline and at least one element per scanline (`x ≥ 1`), an offset at
or beyond the length of the file is not rejected at the seek: the allocation
hook is called and `importVolume` then exits with the short-read diagnostic at
scanline 0, without a region write. -/
theorem importVolume_offset_beyond_end (self : RawVolumeFile)
    (fs : String → Option (List Nat)) (F : List Nat) (v : StructuredVolume) (x y z : Nat)
    (hF : fs self.filename = some F) (hd : v.hasDimensions x y z) (hx : 0 < x)
    (hn : 0 < y * z) (hoff : F.length ≤ v.getParam1i "filename offset" 0) :
    (importVolume self fs (Volume.structured v)).outcome = Outcome.exited 1 ∧
    cerrOf (importVolume self fs (Volume.structured v)).trace
      = ["  " ++ self.toString ++ "  ERROR: end of volume file reached before read completed."] ∧
    allocsOf (importVolume self fs (Volume.structured v)).trace = 1 ∧
    callsOf (importVolume self fs (Volume.structured v)).trace = [0] ∧
    readsOf (importVolume self fs (Volume.structured v)).trace = 1 ∧
    writesOf (importVolume self fs (Volume.structured v)).trace = [] := by
  have h0 : elementsLeft F (v.getParam1i "filename offset" 0) x v.voxelSize 0 = 0 := by
    unfold elementsLeft
    rw [show F.length - (v.getParam1i "filename offset" 0 + 0 * (x * v.voxelSize))
      = 0 by omega]
    exact Nat.zero_div _
  rcases importVolume_spec self fs F v x y z hF hd with
    ⟨hall, _⟩ | ⟨K, hK, hall, hsh, st1, hinv, hrun⟩
  · have := hall 0 hn
    omega
  · have hK0 : K = 0 := by
      rcases Nat.eq_zero_or_pos K with h | h
      · exact h
      · have := hall 0 h; omega
    subst hK0
    obtain ⟨h1, h2, h3, h4, h5⟩ := projections_short hinv
    rw [hrun]
    refine ⟨rfl, ?_, h5, by simpa using h2, by simpa using h3, by simpa using h1⟩
    rw [h4]
    simp [errorLine, shortReadMessage, String.append_assoc]

/-- An instance of C8: offset 100 into a file of 10 bytes, dimensions (4,2,2). -/
theorem importVolume_offset_beyond_end_witness :
    (importVolume rawLoader (oneFile (List.range 10))
        (target 4 2 2 1 [("filename offset", 100)])).outcome = Outcome.exited 1 ∧
    allocsOf (importVolume rawLoader (oneFile (List.range 10))
        (target 4 2 2 1 [("filename offset", 100)])).trace = 1 ∧
    callsOf (importVolume rawLoader (oneFile (List.range 10))
        (target 4 2 2 1 [("filename offset", 100)])).trace = [0] ∧
    writesOf (importVolume rawLoader (oneFile (List.range 10))
        (target 4 2 2 1 [("filename offset", 100)])).trace = [] :=
  have h := importVolume_offset_beyond_end rawLoader (oneFile (List.range 10)) (List.range 10)
    ⟨⟨4, 2, 2⟩, 1, [("filename offset", 100)], []⟩ 4 2 2 rfl
    ⟨rfl, by decide, by decide, by decide, by decide⟩ (by decide) (by decide) (by decide)
  ⟨h.1, h.2.2.1, h.2.2.2.1, h.2.2.2.2.2⟩

/-- C8 as stated fails: with `x = 0` and one scanline, an offset beyond the end
of the file gives no short read: the read of zero elements succeeds, the region
write is made and `importVolume` returns; and with dimensions (1,65536,65536)
the `int` product of the loop bound wraps to 0, no row is read and `importVolume`
returns without a diagnostic. -/
theorem offset_beyond_end_without_short_read :
    importVolume rawLoader (oneFile (List.range 10))
        (target 0 1 1 1 [("filename offset", 100)])
      = { outcome := Outcome.returned "volume",
          trace := [Event.createEquivalentISPC, Event.importVoxelRow 0, Event.fread 1 0 0,
            Event.setRegion [] ⟨0, 0, 0⟩ ⟨0, 1, 1⟩],
          file := some { content := List.range 10, position := 100, isOpen := false },
          volume := target 0 1 1 1 [("filename offset", 100)] } ∧
    (importVolume rawLoader (oneFile (List.range 10))
        (target 1 65536 65536 1 [("filename offset", 100)])).outcome
      = Outcome.returned "volume" ∧
    (importVolume rawLoader (oneFile (List.range 10))
        (target 1 65536 65536 1 [("filename offset", 100)])).trace
      = [Event.createEquivalentISPC] := by
  refine ⟨rfl, rfl, rfl⟩

/-- C9: `exitOnCondition` exits, with code 1, exactly when the condition holds and
`warnOnCondition` never exits; each adds one diagnostic line when the condition
holds and none otherwise; the line is
`"  " ++ toString ++ "  " ++ kind ++ ": " ++ message ++ "."` with kind `ERROR`
for the fatal check and `WARNING` for the other, and contains the type name. -/
theorem check_primitives (name : String) (c : Bool) (m : String) (t : List Event) :
    exitOnCondition name c m t
      = (if c = true
          then Check.exit 1 (t ++ [Event.cerr ("  " ++ name ++ "  " ++ "ERROR" ++ ": " ++ m ++ ".")])
          else Check.proceed t) ∧
    ((∃ code t1, exitOnCondition name c m t = Check.exit code t1) ↔ c = true) ∧
    warnOnCondition name c m t
      = Check.proceed (if c = true
          then t ++ [Event.cerr ("  " ++ name ++ "  " ++ "WARNING" ++ ": " ++ m ++ ".")]
          else t) ∧
    (∀ code t1, warnOnCondition name c m t ≠ Check.exit code t1) ∧
    name.data <:+: ("  " ++ name ++ "  " ++ "ERROR" ++ ": " ++ m ++ ".").data ∧
    name.data <:+: ("  " ++ name ++ "  " ++ "WARNING" ++ ": " ++ m ++ ".").data := by
  refine ⟨?_, ?_, ?_, ?_, ?_, ?_⟩
  · cases c <;> simp [exitOnCondition, emitMessage]
  · cases c <;> simp [exitOnCondition, emitMessage]
  · cases c <;> simp [warnOnCondition, emitMessage]
  · cases c <;> simp [warnOnCondition, emitMessage]
  · refine ⟨"  ".data, ("  " ++ "ERROR" ++ ": " ++ m ++ ".").data, ?_⟩
    simp [String.append_assoc]
  · refine ⟨"  ".data, ("  " ++ "WARNING" ++ ": " ++ m ++ ".").data, ?_⟩
    simp [String.append_assoc]


theorem setRegion_voxels_congr (a b : StructuredVolume) (src : List Nat) (o e : vec3i)
    (hd : a.dimensions = b.dimensions) (hs : a.voxelSize = b.voxelSize)
    (hv : a.voxels = b.voxels) :
    (a.setRegion src o e).voxels = (b.setRegion src o e).voxels := by
  simp only [StructuredVolume.setRegion, hd, hs, hv]

theorem importVoxelRow_similar (self : RawVolumeFile) (i : Nat) {a b : RowState}
    (h : Similar a b) : Step.Similar (importVoxelRow self a i) (importVoxelRow self b i) := by
  have hdrop : ∀ n, a.file.content.drop (a.file.position + n)
      = b.file.content.drop (b.file.position + n) := by
    intro n
    rw [← List.drop_drop n a.file.position, ← List.drop_drop n b.file.position, h.rest]
  unfold importVoxelRow
  simp only [fread, exitOnCondition, h.trace, h.rest, h.buffer, h.dimensions]
  by_cases hy : toSizeT b.volume.dimensions.y = 0
  · simp only [hy, if_true, Step.Similar]
    constructor <;>
      (first | rfl | exact h.rest | exact h.isOpen | exact h.dimensions | exact h.voxelSize | exact h.voxels)
  · rw [if_neg hy, if_neg hy]
    split
    · simp only [Step.Similar]
      refine ⟨trivial, ?_⟩
      constructor <;>
        (first | rfl | exact hdrop _ | exact h.isOpen | exact h.dimensions | exact h.voxelSize | exact h.voxels)
    · simp only [Step.Similar]
      exact ⟨rfl, hdrop _, h.isOpen, h.dimensions, h.voxelSize,
        setRegion_voxels_congr _ _ _ _ _ h.dimensions h.voxelSize h.voxels, rfl⟩

theorem importRows_similar (self : RawVolumeFile) :
    ∀ (count i : Nat) (a b : RowState), Similar a b →
      Step.Similar (importRows self count i a) (importRows self count i b) := by
  intro count
  induction count with
  | zero => intro i a b h; exact h
  | succ count ih =>
    intro i a b h
    have hstep := importVoxelRow_similar self i h
    simp only [importRows]
    rcases ha : importVoxelRow self a i with a1 | ⟨c, a1⟩ | a1 <;>
      rcases hb : importVoxelRow self b i with b1 | ⟨c1, b1⟩ | b1 <;>
      rw [ha, hb] at hstep <;> simp only [Step.Similar] at hstep
    · exact ih (i + 1) a1 b1 hstep
    · exact hstep
    · exact hstep


theorem finishRun_similar {a b : Step} (h : Step.Similar a b) :
    (finishRun a).outcome = (finishRun b).outcome ∧
    (finishRun a).trace = (finishRun b).trace ∧
    (finishRun a).volume.voxels = (finishRun b).volume.voxels := by
  rcases a with a1 | ⟨c, a1⟩ | a1 <;> rcases b with b1 | ⟨c1, b1⟩ | b1 <;>
    simp only [Step.Similar] at h
  · exact ⟨rfl, h.trace, h.voxels⟩
  · exact ⟨by simp only [finishRun, h.1], h.2.trace, h.2.voxels⟩
  · exact ⟨rfl, h.trace, h.voxels⟩

/-- C5: importing file `F` with the "filename offset" parameter `N` and
importing `F` without its first `N` bytes with offset 0, into targets of the
same dimensions and element size, end in the same way (return or exit code),
with the same trace (diagnostics, allocation, reads, region writes in order)
and the same final storage, for every `N` (in particular for `N` up to the
length of `F`); for a target that is not a structured volume both end in the
same failure. -/
theorem offset_equivalence (self : RawVolumeFile) (fs1 fs2 : String → Option (List Nat))
    (F : List Nat) (N : Nat) (v1 v2 : StructuredVolume)
    (hF1 : fs1 self.filename = some F) (hF2 : fs2 self.filename = some (F.drop N))
    (h1 : v1.getParam1i "filename offset" 0 = N) (h2 : v2.getParam1i "filename offset" 0 = 0)
    (hd : v1.dimensions = v2.dimensions) (hs : v1.voxelSize = v2.voxelSize) :
    (importVolume self fs1 (Volume.structured v1)).outcome
      = (importVolume self fs2 (Volume.structured v2)).outcome ∧
    (importVolume self fs1 (Volume.structured v1)).trace
      = (importVolume self fs2 (Volume.structured v2)).trace ∧
    (importVolume self fs1 (Volume.structured v1)).volume.voxels
      = (importVolume self fs2 (Volume.structured v2)).volume.voxels ∧
    (importVolume self fs1 Volume.other).outcome = (importVolume self fs2 Volume.other).outcome ∧
    (importVolume self fs1 Volume.other).trace = (importVolume self fs2 Volume.other).trace := by
  have h0 : Similar (startState F v1) (startState (F.drop N) v2) := by
    constructor
    · rfl
    · simp only [startState, fseek, h1, h2, List.drop_drop, Nat.add_zero]
    · rfl
    · exact hd
    · exact hs
    · simp only [startState, StructuredVolume.createEquivalentISPC,
        StructuredVolume.byteCount, hd, hs]
    · simp only [startState, StructuredVolume.createEquivalentISPC, hd, hs]
  have hsc : scanlines v1 = scanlines v2 := by unfold scanlines; rw [hd]
  have hsim := importRows_similar self (scanlines v1) 0 _ _ h0
  rw [importVolume_structured self fs1 F v1 hF1, importVolume_structured self fs2 _ v2 hF2,
    importVolume_other self fs1 F hF1, importVolume_other self fs2 _ hF2, ← hsc]
  obtain ⟨r1, r2, r3⟩ := finishRun_similar hsim
  exact ⟨r1, r2, r3, rfl, rfl⟩

/-- An instance of C5: a file of 10 bytes read at offset 2 and the file of its
last 8 bytes read at offset 0, for a (2,2,2) volume of 1-byte voxels. -/
theorem offset_equivalence_witness :
    (importVolume rawLoader (oneFile (List.range 10))
        (target 2 2 2 1 [("filename offset", 2)])).trace
      = (importVolume rawLoader (oneFile [2, 3, 4, 5, 6, 7, 8, 9]) (target 2 2 2 1 [])).trace ∧
    (importVolume rawLoader (oneFile (List.range 10))
        (target 2 2 2 1 [("filename offset", 2)])).volume.voxels
      = (importVolume rawLoader (oneFile [2, 3, 4, 5, 6, 7, 8, 9])
          (target 2 2 2 1 [])).volume.voxels :=
  have h := offset_equivalence rawLoader (oneFile (List.range 10))
    (oneFile [2, 3, 4, 5, 6, 7, 8, 9]) (List.range 10) 2
    ⟨⟨2, 2, 2⟩, 1, [("filename offset", 2)], []⟩ ⟨⟨2, 2, 2⟩, 1, [], []⟩
    rfl rfl rfl rfl rfl rfl
  ⟨h.2.1, h.2.2.1⟩


end ospray
